import Mathlib

/-!
Verification development for the job-scraper pipeline in `main.py`.

The program is a single Python script with five pieces of pipeline logic:
a seen-URL store backed by a single sqlite table (`setup_database`,
`is_url_new`, `add_url_to_db`), a link discoverer (`find_new_job_links`),
a content extractor (`get_clean_text_from_url`), a comparator that calls a
remote LLM service (`analyze_with_deepseek`), and the orchestrating
`__main__` loop.

The shallow embedding below models each piece over explicit state:

* the sqlite table `seen_urls` is a `List String` of its `url` column
  (insertion order; the primary-key constraint is modelled by
  `add_url_to_db` failing with `integrityError` on a duplicate);
* Python exceptions that the script can raise or catch are the inductive
  `PyExn`; a function that can raise returns `Except PyExn`;
* network interactions are modelled at their interface boundary, as the
  spec itself directs: the outcome of the HTTP exchange performed by
  `analyze_with_deepseek` is an `ApiOutcome`, the outcome of the
  Playwright page load is a `DiscoveryOutcome`, and the outcome of
  `get_clean_text_from_url` for an item is an `Option String`;
* the observable behaviour of a run (stdout lines and database writes)
  is a `List Event`.

`json.loads` of the Python standard library is passed in as an oracle
`loads : String → Except PyExn JsonValue`; the script never inspects the
parse beyond success/failure plus the resulting value, so any oracle
instantiation is sound, and concrete theorems use the small test oracle
`loads0`.

One external fact is version dependent and is made an explicit parameter:
since requests 2.27, `Response.json()` raises
`requests.exceptions.JSONDecodeError`, which is a subclass of both
`RequestException` and `json.JSONDecodeError`; before 2.27 it raised the
plain `json.JSONDecodeError`. The boolean `modernRequests` selects which
of the two exception hierarchies is in effect, because it decides which
`except` clause of `analyze_with_deepseek` fires on a 2xx response whose
body is not valid JSON.
-/

/-- A JSON value as produced by `json.loads`; numbers are modelled as
integers (no claim involves fractional values). -/
inductive JsonValue where
  | null : JsonValue
  | bool (b : Bool) : JsonValue
  | num (n : Int) : JsonValue
  | str (s : String) : JsonValue
  | arr (elems : List JsonValue) : JsonValue
  | obj (fields : List (String × JsonValue)) : JsonValue

/-- Python truthiness of a JSON value, as tested by `if analysis:` in the
`__main__` loop: `None`, `False`, `0`, empty string, empty list and empty
dict are falsy. -/
def JsonValue.truthy : JsonValue → Bool
  | .null => false
  | .bool b => b
  | .num n => n != 0
  | .str s => s != ""
  | .arr [] => false
  | .arr (_ :: _) => true
  | .obj [] => false
  | .obj (_ :: _) => true

/-- The Python exceptions relevant to the script. `missingCredential` is
the startup error named by the spec; the script itself never raises it. -/
inductive PyExn where
  | jsonDecodeError : PyExn
  | keyError (key : String) : PyExn
  | indexError : PyExn
  | typeError : PyExn
  | nameError (ident : String) : PyExn
  | integrityError : PyExn
  | playwrightError : PyExn
  | missingCredential : PyExn
deriving DecidableEq

/-- Observable effects of the `__main__` loop, in program order:
stdout markers and database writes. `analysisPrinted` is the
`print(json.dumps(analysis, indent=2))` call, `urlSaved` the committed
`add_url_to_db` insert, `savedMessage` the final success line, and
`foundCount` the `Found n new job postings.` line. -/
inductive Event where
  | processing (url : String) : Event
  | apiRequest (auth : String) : Event
  | analysisPrinted : Event
  | urlSaved (url : String) : Event
  | savedMessage (url : String) : Event
  | foundCount (n : Nat) : Event
deriving DecidableEq

/-- Interface-boundary outcome of the HTTP exchange in
`analyze_with_deepseek`: the POST can fail at transport level, the
response can be non-2xx (so `raise_for_status` raises `HTTPError`), the
2xx body can fail to parse as JSON, or it parses to an envelope value. -/
inductive ApiOutcome where
  | connFail : ApiOutcome
  | badStatus : ApiOutcome
  | bodyNotJson : ApiOutcome
  | okJson (envelope : JsonValue) : ApiOutcome

/-- Python subscript `v[k]` with a string key: dict lookup (`KeyError` when
missing), `TypeError` on every non-dict value. -/
def pyGetStr (v : JsonValue) (k : String) : Except PyExn JsonValue :=
  match v with
  | .obj fields =>
    match fields.lookup k with
    | some x => .ok x
    | none => .error (.keyError k)
  | _ => .error .typeError

/-- Python subscript `v[i]` with a non-negative integer: list indexing
(`IndexError` out of range), one-character string for strings, `KeyError`
for dicts, `TypeError` otherwise. -/
def pyGetIdx (v : JsonValue) (i : Nat) : Except PyExn JsonValue :=
  match v with
  | .arr elems =>
    match elems.get? i with
    | some x => .ok x
    | none => .error .indexError
  | .str s =>
    match s.toList.get? i with
    | some c => .ok (.str (String.mk [c]))
    | none => .error .indexError
  | .obj _ => .error (.keyError (toString i))
  | _ => .error .typeError

/-- The envelope unwrapping `response.json()["choices"][0]["message"]["content"]`
performed on line 53 of `main.py`; none of these subscripts is inside the
`try`-clauses that the function catches, so any failure propagates. -/
def extractContent (envelope : JsonValue) : Except PyExn JsonValue := do
  let choices ← pyGetStr envelope ("choices")
  let first ← pyGetIdx choices 0
  let message ← pyGetStr first ("message")
  pyGetStr message ("content")

/-- `analyze_with_deepseek` (main.py lines 14-61), modelled over the
outcome of its HTTP exchange and a `loads` oracle for `json.loads`.

* transport failure and non-2xx: caught by
  `except requests.exceptions.RequestException` — prints and returns `None`;
* 2xx with a non-JSON body: with `modernRequests` (requests ≥ 2.27) the
  raised `requests.exceptions.JSONDecodeError` is a `RequestException`, so
  the first handler catches it and the function returns `None`; with the
  legacy hierarchy the plain `json.JSONDecodeError` reaches the second
  handler, whose f-string reads the not-yet-assigned local
  `result_content` and therefore raises `NameError`;
* 2xx with a JSON body: the envelope subscripts run uncaught; when the
  extracted content is a string, `json.loads` of it is returned on
  success, a `json.JSONDecodeError` from it is caught (here
  `result_content` is bound) and `None` is returned; `json.loads` applied
  to a non-string raises an uncaught `TypeError`. -/
def analyze_with_deepseek (modernRequests : Bool)
    (loads : String → Except PyExn JsonValue) :
    ApiOutcome → Except PyExn (Option JsonValue)
  | .connFail => .ok none
  | .badStatus => .ok none
  | .bodyNotJson =>
    if modernRequests then .ok none else .error (.nameError ("result_content"))
  | .okJson envelope =>
    match extractContent envelope with
    | .error e => .error e
    | .ok (.str content) =>
      match loads content with
      | .ok v => .ok (some v)
      | .error .jsonDecodeError => .ok none
      | .error e => .error e
    | .ok _ => .error .typeError

/-- The message content carried by an outcome, when the envelope has the
expected `choices[0].message.content` string. -/
def envelopeContentString : ApiOutcome → Option String
  | .okJson envelope =>
    match extractContent envelope with
    | .ok (.str s) => some s
    | _ => none
  | _ => none

/-- The API outcomes on which `analyze_with_deepseek` returns instead of
raising: every transport-level failure, a non-JSON body under the modern
`requests` hierarchy, and a well-shaped envelope whose string content
either parses or fails with `json.JSONDecodeError`. -/
def handledOutcome (modernRequests : Bool)
    (loads : String → Except PyExn JsonValue) : ApiOutcome → Bool
  | .connFail => true
  | .badStatus => true
  | .bodyNotJson => modernRequests
  | .okJson envelope =>
    match extractContent envelope with
    | .ok (.str content) =>
      match loads content with
      | .ok _ => true
      | .error .jsonDecodeError => true
      | .error _ => false
    | _ => false

/-- A response envelope of the documented DeepSeek shape whose generated
message content is the string `s`. -/
def envelopeWithContent (s : String) : JsonValue :=
  .obj [(("choices"), .arr [.obj [(("message"), .obj [(("content"), .str s)])]])]

/-- Concrete test oracle for `json.loads`, defined on the two JSON texts
the examples use: the empty object, and a one-field object (truthy but
not schema-conforming); every other string fails to parse. -/
def loads0 (s : String) : Except PyExn JsonValue :=
  if s = "\x7b\x7d" then .ok (.obj [])
  else if s = "\x7b\x22ok\x22: 1\x7d" then .ok (.obj [(("ok"), .num 1)])
  else .error .jsonDecodeError

/-- The Python `str()` rendering used when an `Optional[str]` is
interpolated into an f-string: `None` renders as the text `None`. -/
def pyFormatOptStr : Option String → String
  | none => "None"
  | some s => s

/-- Module-level `DEEPSEEK_API_KEY = os.getenv("DEEPSEEK_API_KEY")`
(main.py line 11), over the process environment. -/
def DEEPSEEK_API_KEY (env : String → Option String) : Option String :=
  env ("DEEPSEEK_API_KEY")

/-- The `Authorization` header value built on main.py line 19 by the
f-string `f"Bearer {DEEPSEEK_API_KEY}"`. -/
def authorizationHeader (key : Option String) : String :=
  "Bearer " ++ pyFormatOptStr key

/-- The full header dict built on main.py lines 17-20. -/
def requestHeaders (key : Option String) : List (String × String) :=
  [(("Content-Type"), ("application/json")),
   (("Authorization"), authorizationHeader key)]

/-- `is_url_new` (main.py lines 83-90): the SELECT returns a row exactly
when the url is in the `seen_urls` table, and the function returns
whether no row was found. -/
def is_url_new (db : List String) (url : String) : Bool :=
  !(db.contains url)

/-- `add_url_to_db` (main.py lines 93-99): a plain INSERT against the
primary-key column; sqlite raises `IntegrityError` on a duplicate, which
nothing in the script catches, and otherwise the row is appended and
committed. -/
def add_url_to_db (db : List String) (url : String) : Except PyExn (List String) :=
  if db.contains url then .error .integrityError else .ok (db ++ [url])

/-- Whether a URL reference carries a scheme, per RFC 3986 / Python
`urllib.parse`: a leading alphabetic character followed by
alphanumerics, `+`, `-` or `.`, then a colon. -/
def isSchemeChar (c : Char) : Bool :=
  c.isAlpha || c.isDigit || c == '+' || c == '-' || c == '.'

/-- Python `str.startswith(pre)`, computed over the underlying character
list so that concrete instances evaluate inside the kernel. -/
def pyStartsWith (s pre : String) : Bool :=
  pre.toList.isPrefixOf s.toList

/-- Test for a scheme prefix in a URL reference. -/
def hasScheme (s : String) : Bool :=
  let cs := s.toList
  let pre := cs.takeWhile (fun c => c != ':')
  match cs.drop pre.length with
  | ':' :: _ =>
    match pre with
    | [] => false
    | c :: rest => c.isAlpha && rest.all isSchemeChar
  | _ => false

/-- Drop everything up to and including the first colon. -/
def afterScheme (cs : List Char) : List Char :=
  (cs.dropWhile (fun c => c != ':')).drop 1

/-- Split a `//authority/rest` suffix into its authority part (with the
leading slashes) and the remainder; identity split when no authority. -/
def splitAuthority (cs : List Char) : List Char × List Char :=
  match cs with
  | '/' :: '/' :: rest =>
    let auth := rest.takeWhile (fun c => c != '/')
    ('/' :: '/' :: auth, rest.drop auth.length)
  | _ => ([], cs)

/-- Scheme of an absolute URL. -/
def schemeOf (base : String) : String :=
  String.mk (base.toList.takeWhile (fun c => c != ':'))

/-- `scheme://authority` prefix of an absolute URL. -/
def schemeNetloc (base : String) : String :=
  let cs := base.toList
  let scheme := cs.takeWhile (fun c => c != ':')
  let auth := (splitAuthority (afterScheme cs)).1
  String.mk (scheme ++ ':' :: auth)

/-- The base URL truncated after the last slash of its path (query and
fragment discarded); falls back to the authority root when the path has
no slash. -/
def dirname (base : String) : String :=
  let cs := base.toList
  let scheme := cs.takeWhile (fun c => c != ':')
  let (auth, rest) := splitAuthority (afterScheme cs)
  let path := rest.takeWhile (fun c => c != '?' && c != '#')
  let dir := (path.reverse.dropWhile (fun c => c != '/')).reverse
  String.mk (scheme ++ ':' :: auth ++ (if dir.isEmpty then ['/'] else dir))

/-- Modelled from the spec: the `urljoin` semantics of Python's standard
`urllib.parse` module, an external collaborator that the spec leaves at
its interface boundary, restricted to the reference shapes this program
produces — an absolute `http(s)` base page URL, and a reference that
either carries its own scheme (returned unchanged), is protocol-relative
(`//host/...`), is an absolute path (`/...`), or is a relative path
(joined onto the base's directory). Dot-segment normalisation and the
same-scheme relative form are not modelled. -/
def urljoin (base url : String) : String :=
  if url = "" then base
  else if hasScheme url then url
  else if pyStartsWith url ("//") then schemeOf base ++ ":" ++ url
  else if pyStartsWith url ("/") then schemeNetloc base ++ url
  else dirname base ++ url

/-- The per-link resolution on main.py lines 131-134: a link target is
passed to `urljoin` only when it does NOT start with the literal text
`http`; anything starting with `http` is kept verbatim. -/
def resolveHref (base href : String) : String :=
  if pyStartsWith href ("http") then href else urljoin base href

/-- Interface-boundary outcome of the Playwright page load inside
`find_new_job_links`: either `page.goto` raises (network failure or
timeout), or the selector query yields the `href` attributes of the
matched anchors, each possibly absent. -/
inductive DiscoveryOutcome where
  | loadFailure : DiscoveryOutcome
  | loaded (hrefs : List (Option String)) : DiscoveryOutcome

/-- The link-collection loop of `find_new_job_links` (main.py lines
128-137): skip absent and empty `href` attributes, resolve the rest
against the page URL, and keep those for which `is_url_new` holds.
The seen table is not modified during discovery, so `db` is fixed. -/
def collectLinks (db : List String) (base : String) : List (Option String) → List String
  | [] => []
  | none :: rest => collectLinks db base rest
  | some h :: rest =>
    if h = "" then collectLinks db base rest
    else
      let r := resolveHref base h
      if r = "" then collectLinks db base rest
      else if is_url_new db r then r :: collectLinks db base rest
      else collectLinks db base rest

/-- The identifiers discovered on the page: the same traversal with the
novelty filter removed — every resolved, non-empty link target. -/
def discoveredIds (base : String) : List (Option String) → List String
  | [] => []
  | none :: rest => discoveredIds base rest
  | some h :: rest =>
    if h = "" then discoveredIds base rest
    else
      let r := resolveHref base h
      if r = "" then discoveredIds base rest
      else r :: discoveredIds base rest

/-- `find_new_job_links` (main.py lines 113-142): a page-load failure
propagates out of the function (nothing catches it, the `with` blocks
only close the browser), otherwise the collected new links are
deduplicated by `list(set(new_links))`. Python's set iteration order is
unspecified, so only the membership of the result is meaningful; the
model uses `List.dedup`. -/
def find_new_job_links (db : List String) (base : String) :
    DiscoveryOutcome → Except PyExn (List String)
  | .loadFailure => .error .playwrightError
  | .loaded hrefs => .ok ((collectLinks db base hrefs).dedup)

/-- The per-item data the loop body consumes, at the interface boundary:
the result of `get_clean_text_from_url` (`None` on any fetch/extract
failure, otherwise the extracted text, which may be empty), and the HTTP
outcome of the item's `analyze_with_deepseek` call. -/
structure ItemInput where
  extract : Option String
  api : ApiOutcome

/-- One iteration of the `__main__` loop (main.py lines 156-166) over a
seen table `db`, returning the events it emits together with either the
updated table or the uncaught exception that aborts the run:

* `if job_description:` — a `None` or empty extraction skips the item;
* otherwise the comparator is invoked (observable as `apiRequest` with
  the Authorization header it sends); an exception from it propagates;
* `if analysis:` — a `None` or falsy result skips the item;
* otherwise the analysis is printed FIRST (lines 163-164) and only then
  is the url inserted (line 165); an `IntegrityError` from the insert
  propagates. -/
def processItem (modernRequests : Bool) (loads : String → Except PyExn JsonValue)
    (key : Option String) (db : List String) (url : String) (inp : ItemInput) :
    List Event × Except PyExn (List String) :=
  match inp.extract with
  | none => ([Event.processing url], .ok db)
  | some text =>
    if text = "" then ([Event.processing url], .ok db)
    else
      let evs := [Event.processing url, Event.apiRequest (authorizationHeader key)]
      match analyze_with_deepseek modernRequests loads inp.api with
      | .error e => (evs, .error e)
      | .ok none => (evs, .ok db)
      | .ok (some v) =>
        if v.truthy then
          match add_url_to_db db url with
          | .error e => (evs ++ [Event.analysisPrinted], .error e)
          | .ok db2 =>
            (evs ++ [Event.analysisPrinted, Event.urlSaved url, Event.savedMessage url],
             .ok db2)
        else (evs, .ok db)

/-- The whole `for url in new_job_urls:` loop, threading the seen table
through the iterations; an uncaught exception in any iteration ends the
loop (and the process) immediately, with the events emitted so far. -/
def runItems (modernRequests : Bool) (loads : String → Except PyExn JsonValue)
    (key : Option String) : List String → List String → (String → ItemInput) →
    List Event × Except PyExn (List String)
  | [], db, _ => ([], .ok db)
  | u :: rest, db, items =>
    match processItem modernRequests loads key db u (items u) with
    | (evs, .error e) => (evs, .error e)
    | (evs, .ok db2) =>
      let tail := runItems modernRequests loads key rest db2 items
      (evs ++ tail.1, tail.2)

/-- The `__main__` body from discovery onwards (main.py lines 153-166):
`find_new_job_links` is called with no surrounding handler, so a
discovery failure crashes the run before the found-count line; otherwise
the count is printed and the loop runs. -/
def runMain (modernRequests : Bool) (loads : String → Except PyExn JsonValue)
    (key : Option String) (db : List String) (base : String)
    (disc : DiscoveryOutcome) (items : String → ItemInput) :
    List Event × Except PyExn (List String) :=
  match find_new_job_links db base disc with
  | .error e => ([], .error e)
  | .ok urls =>
    let tail := runItems modernRequests loads key urls db items
    (Event.foundCount urls.length :: tail.1, tail.2)

/-- Modelled from the spec: the AnalysisResult schema — the required
fields requested by the prompt on main.py line 36, with the types and
score range the spec assigns them (strings, lists of strings, and an
integer match score between 0 and 10). This definition follows the
spec's words and is compared against what the code actually returns. -/
def specSchemaConforms (v : JsonValue) : Bool :=
  match v with
  | .obj fields =>
    (match fields.lookup ("job_title") with
     | some (.str _) => true | _ => false) &&
    (match fields.lookup ("company_name") with
     | some (.str _) => true | _ => false) &&
    (match fields.lookup ("match_score_10") with
     | some (.num n) => decide (0 ≤ n) && decide (n ≤ 10) | _ => false) &&
    (match fields.lookup ("key_strengths") with
     | some (.arr xs) => xs.all (fun x => match x with | .str _ => true | _ => false)
     | _ => false) &&
    (match fields.lookup ("potential_gaps") with
     | some (.arr xs) => xs.all (fun x => match x with | .str _ => true | _ => false)
     | _ => false) &&
    (match fields.lookup ("summary_for_email") with
     | some (.str _) => true | _ => false) &&
    (match fields.lookup ("keywords_to_add") with
     | some (.arr xs) => xs.all (fun x => match x with | .str _ => true | _ => false)
     | _ => false)
  | _ => false

/-- An item whose extraction succeeds with non-empty text and whose API
exchange returns a well-formed envelope carrying a truthy (but not
schema-conforming) one-field JSON object. -/
def goodInput : ItemInput :=
  ⟨some ("job text"), .okJson (envelopeWithContent ("\x7b\x22ok\x22: 1\x7d"))⟩

/-- Recogniser for the Persist step's event. -/
def isPersistEvent : Event → Bool
  | .urlSaved _ => true
  | _ => false

/-- Recogniser for the Report step's event (the printed AnalysisResult). -/
def isReportEvent : Event → Bool
  | .analysisPrinted => true
  | _ => false

/-- Whether the Persist step occurs no later than the Report step in a
trace, vacuously true when either is absent. -/
def persistBeforeReport (evs : List Event) : Bool :=
  match evs.findIdx? isPersistEvent, evs.findIdx? isReportEvent with
  | some i, some j => decide (i < j)
  | _, _ => true

/-! ## Helper lemmas -/

/-- `is_url_new` decides non-membership in the seen table. -/
theorem is_url_new_iff (db : List String) (u : String) :
    is_url_new db u = true ↔ u ∉ db := by
  simp [is_url_new, List.contains]

/-- Membership in the collected new links: exactly the discovered
identifiers that are not in the seen table. -/
theorem mem_collectLinks (db : List String) (base : String)
    (hrefs : List (Option String)) (x : String) :
    x ∈ collectLinks db base hrefs ↔ x ∈ discoveredIds base hrefs ∧ x ∉ db := by
  induction hrefs with
  | nil => simp [collectLinks, discoveredIds]
  | cons h rest ih =>
    cases h with
    | none => simpa [collectLinks, discoveredIds] using ih
    | some s =>
      by_cases hs : s = ""
      · simp [collectLinks, discoveredIds, hs, ih]
      · by_cases hr : resolveHref base s = ""
        · simp [collectLinks, discoveredIds, hs, hr, ih]
        · by_cases hn : is_url_new db (resolveHref base s) = true
          · have hmem : resolveHref base s ∉ db := (is_url_new_iff db _).mp hn
            simp only [collectLinks, discoveredIds, if_neg hs, if_neg hr, if_pos hn,
              List.mem_cons, ih]
            constructor
            · rintro (rfl | ⟨hd, hdb⟩)
              · exact ⟨Or.inl rfl, hmem⟩
              · exact ⟨Or.inr hd, hdb⟩
            · rintro ⟨rfl | hd, hdb⟩
              · exact Or.inl rfl
              · exact Or.inr ⟨hd, hdb⟩
          · have hmem : resolveHref base s ∈ db := by
              by_contra hc
              exact hn ((is_url_new_iff db _).mpr hc)
            simp only [collectLinks, discoveredIds, if_neg hs, if_neg hr, if_neg hn,
              List.mem_cons, ih]
            constructor
            · rintro ⟨hd, hdb⟩
              exact ⟨Or.inr hd, hdb⟩
            · rintro ⟨rfl | hd, hdb⟩
              · exact absurd hmem hdb
              · exact ⟨hd, hdb⟩

/-- Inserting a fresh url appends one row. -/
theorem add_url_to_db_of_not_mem (db : List String) (u : String) (hu : u ∉ db) :
    add_url_to_db db u = .ok (db ++ [u]) := by
  simp [add_url_to_db, List.contains, hu]

/-- Inserting a url already present violates the primary key. -/
theorem add_url_to_db_of_mem (db : List String) (u : String) (hu : u ∈ db) :
    add_url_to_db db u = .error .integrityError := by
  simp [add_url_to_db, List.contains, hu]

/-- On a handled API outcome, the comparator returns instead of raising. -/
theorem analyze_isOk_of_handled (modern : Bool) (loads : String → Except PyExn JsonValue)
    (o : ApiOutcome) (hh : handledOutcome modern loads o = true) :
    ∃ r, analyze_with_deepseek modern loads o = .ok r := by
  cases o with
  | connFail => exact ⟨none, rfl⟩
  | badStatus => exact ⟨none, rfl⟩
  | bodyNotJson =>
    simp only [handledOutcome] at hh
    subst hh
    exact ⟨none, rfl⟩
  | okJson env =>
    simp only [handledOutcome] at hh
    rcases hx : extractContent env with e | v
    · rw [hx] at hh
      simp at hh
    · cases v with
      | str s =>
        rw [hx] at hh
        simp only [] at hh
        rcases hl : loads s with e2 | v2
        · cases e2 with
          | jsonDecodeError => exact ⟨none, by simp [analyze_with_deepseek, hx, hl]⟩
          | keyError k => rw [hl] at hh; simp at hh
          | indexError => rw [hl] at hh; simp at hh
          | typeError => rw [hl] at hh; simp at hh
          | nameError n => rw [hl] at hh; simp at hh
          | integrityError => rw [hl] at hh; simp at hh
          | playwrightError => rw [hl] at hh; simp at hh
          | missingCredential => rw [hl] at hh; simp at hh
        · exact ⟨some v2, by simp [analyze_with_deepseek, hx, hl]⟩
      | null => rw [hx] at hh; simp at hh
      | bool b => rw [hx] at hh; simp at hh
      | num n => rw [hx] at hh; simp at hh
      | arr xs => rw [hx] at hh; simp at hh
      | obj fs => rw [hx] at hh; simp at hh

/-- On a handled API outcome and a fresh url, one loop iteration returns
normally and either leaves the table unchanged or appends exactly the
processed url. -/
theorem processItem_ok_of_handled (modern : Bool) (loads : String → Except PyExn JsonValue)
    (key : Option String) (db : List String) (u : String) (inp : ItemInput)
    (hu : u ∉ db) (hh : handledOutcome modern loads inp.api = true) :
    ∃ evs db2, processItem modern loads key db u inp = (evs, .ok db2) ∧
      (db2 = db ∨ db2 = db ++ [u]) := by
  rcases inp with ⟨ext, api⟩
  cases ext with
  | none => exact ⟨[Event.processing u], db, rfl, Or.inl rfl⟩
  | some t =>
    by_cases ht : t = ""
    · refine ⟨[Event.processing u], db, ?_, Or.inl rfl⟩
      simp [processItem, ht]
    · obtain ⟨r, hr⟩ := analyze_isOk_of_handled modern loads api hh
      cases r with
      | none =>
        refine ⟨[Event.processing u, Event.apiRequest (authorizationHeader key)], db, ?_,
          Or.inl rfl⟩
        simp [processItem, if_neg ht, hr]
      | some v =>
        by_cases hv : v.truthy = true
        · refine ⟨[Event.processing u, Event.apiRequest (authorizationHeader key),
            Event.analysisPrinted, Event.urlSaved u, Event.savedMessage u], db ++ [u], ?_,
            Or.inr rfl⟩
          simp [processItem, if_neg ht, hr, hv, add_url_to_db_of_not_mem db u hu]
        · refine ⟨[Event.processing u, Event.apiRequest (authorizationHeader key)], db, ?_,
            Or.inl rfl⟩
          simp [processItem, if_neg ht, hr, hv]

/-! ## Claim C1 — schema conformance of the comparator -/

/-- Claim C1, counterexample: on a 2xx response whose envelope is well
shaped and whose generated content is the JSON text of the empty object,
`analyze_with_deepseek` returns that empty object — a present record in
which every required AnalysisResult field is missing — contradicting the
claim that every present result has all required fields with the
specified types. -/
theorem analyze_can_return_nonconforming_record :
    analyze_with_deepseek true loads0 (.okJson (envelopeWithContent ("\x7b\x7d")))
      = .ok (some (.obj [])) ∧
    specSchemaConforms (.obj []) = false :=
  ⟨rfl, rfl⟩

/-- Claim C1 (amended): the comparator performs no schema validation at
all — for every outcome it either returns `None`, or raises an uncaught
exception, or returns exactly the unvalidated `json.loads` parse of the
envelope's message content, whatever its shape. -/
theorem analyze_result_is_unvalidated_parse (modern : Bool)
    (loads : String → Except PyExn JsonValue) (o : ApiOutcome) :
    analyze_with_deepseek modern loads o = .ok none ∨
    (∃ e, analyze_with_deepseek modern loads o = .error e) ∨
    (∃ s v, envelopeContentString o = some s ∧ loads s = .ok v ∧
      analyze_with_deepseek modern loads o = .ok (some v)) := by
  cases o with
  | connFail => exact Or.inl rfl
  | badStatus => exact Or.inl rfl
  | bodyNotJson =>
    cases modern with
    | true => exact Or.inl rfl
    | false => exact Or.inr (Or.inl ⟨.nameError ("result_content"), rfl⟩)
  | okJson env =>
    rcases hx : extractContent env with e | v
    · exact Or.inr (Or.inl ⟨e, by simp [analyze_with_deepseek, hx]⟩)
    · cases v with
      | str s =>
        rcases hl : loads s with e2 | v2
        · cases e2 with
          | jsonDecodeError => exact Or.inl (by simp [analyze_with_deepseek, hx, hl])
          | keyError k =>
            exact Or.inr (Or.inl ⟨PyExn.keyError k, by simp [analyze_with_deepseek, hx, hl]⟩)
          | indexError =>
            exact Or.inr (Or.inl ⟨PyExn.indexError, by simp [analyze_with_deepseek, hx, hl]⟩)
          | typeError =>
            exact Or.inr (Or.inl ⟨PyExn.typeError, by simp [analyze_with_deepseek, hx, hl]⟩)
          | nameError n =>
            exact Or.inr (Or.inl ⟨PyExn.nameError n, by simp [analyze_with_deepseek, hx, hl]⟩)
          | integrityError =>
            exact Or.inr (Or.inl ⟨PyExn.integrityError, by simp [analyze_with_deepseek, hx, hl]⟩)
          | playwrightError =>
            exact Or.inr (Or.inl ⟨PyExn.playwrightError, by simp [analyze_with_deepseek, hx, hl]⟩)
          | missingCredential =>
            exact Or.inr (Or.inl ⟨PyExn.missingCredential, by simp [analyze_with_deepseek, hx, hl]⟩)
        · refine Or.inr (Or.inr ⟨s, v2, ?_, hl, ?_⟩)
          · simp [envelopeContentString, hx]
          · simp [analyze_with_deepseek, hx, hl]
      | null => exact Or.inr (Or.inl ⟨.typeError, by simp [analyze_with_deepseek, hx]⟩)
      | bool b => exact Or.inr (Or.inl ⟨.typeError, by simp [analyze_with_deepseek, hx]⟩)
      | num n => exact Or.inr (Or.inl ⟨.typeError, by simp [analyze_with_deepseek, hx]⟩)
      | arr xs => exact Or.inr (Or.inl ⟨.typeError, by simp [analyze_with_deepseek, hx]⟩)
      | obj fs => exact Or.inr (Or.inl ⟨.typeError, by simp [analyze_with_deepseek, hx]⟩)

/-! ## Claim C2 — seen-marking iff extraction and comparison succeed -/

/-- Claim C2, counterexample: extraction returns a present non-empty
text and the comparator returns a present value (the empty JSON object),
yet the identifier is not recorded — the loop tests Python truthiness,
not presence, so the claimed "if and only if both present" fails. -/
theorem present_analysis_not_recorded :
    analyze_with_deepseek true loads0 (.okJson (envelopeWithContent ("\x7b\x7d")))
      = .ok (some (.obj [])) ∧
    processItem true loads0 (some ("k")) [] ("https://x/jobs/2")
        ⟨some ("job text"), .okJson (envelopeWithContent ("\x7b\x7d"))⟩
      = ([.processing ("https://x/jobs/2"), .apiRequest ("Bearer k")], .ok []) :=
  ⟨rfl, rfl⟩

/-- Claim C2 (amended): for a fresh identifier whose loop iteration
returns normally, the identifier ends up in the seen table if and only
if extraction yielded a non-empty text AND the comparator returned a
truthy value; in particular every absent (None) extraction or comparison
leaves the identifier unrecorded, so the next run's filter presents it
again. -/
theorem recorded_iff_truthy_extraction_and_analysis (modern : Bool)
    (loads : String → Except PyExn JsonValue) (key : Option String)
    (db : List String) (u : String) (inp : ItemInput)
    (hu : u ∉ db) (evs : List Event) (db2 : List String)
    (h : processItem modern loads key db u inp = (evs, .ok db2)) :
    u ∈ db2 ↔ (∃ t, inp.extract = some t ∧ t ≠ "" ∧
      ∃ v, analyze_with_deepseek modern loads inp.api = .ok (some v) ∧ v.truthy = true) := by
  rcases inp with ⟨ext, api⟩
  cases ext with
  | none =>
    simp only [processItem, Prod.mk.injEq, Except.ok.injEq] at h
    obtain ⟨he, hdb⟩ := h
    subst hdb
    simp [hu]
  | some t =>
    by_cases ht : t = ""
    · simp only [processItem, ht, if_pos rfl, Prod.mk.injEq, Except.ok.injEq, if_true,
        eq_self_iff_true] at h
      obtain ⟨he, hdb⟩ := h
      subst hdb
      simp [hu, ht]
    · simp only [processItem, if_neg ht] at h
      rcases ha : analyze_with_deepseek modern loads api with e | ov
      · rw [ha] at h
        simp at h
      · rw [ha] at h
        cases ov with
        | none =>
          simp at h
          obtain ⟨he, hdb⟩ := h
          subst hdb
          simp [hu]
        | some v =>
          by_cases hv : v.truthy = true
          · simp [hv, add_url_to_db_of_not_mem db u hu] at h
            obtain ⟨he, hdb⟩ := h
            subst hdb
            simp [ht, hv]
          · simp [hv] at h
            obtain ⟨he, hdb⟩ := h
            subst hdb
            simp [hu, ht, hv]

/-- Claim C2 witness: a fully successful pass (non-empty extraction,
truthy analysis) at a concrete input: the theorem's equivalence holds
with the recorded side true. -/
theorem recorded_iff_truthy_extraction_and_analysis_witness :
    (("https://x/jobs/2") ∈ [("https://x/jobs/2")] ↔
      (∃ t, goodInput.extract = some t ∧ t ≠ "" ∧
        ∃ v, analyze_with_deepseek true loads0 goodInput.api = .ok (some v) ∧
          v.truthy = true)) :=
  recorded_iff_truthy_extraction_and_analysis true loads0 (some ("k")) []
    ("https://x/jobs/2") goodInput (by simp)
    [.processing ("https://x/jobs/2"), .apiRequest ("Bearer k"), .analysisPrinted,
     .urlSaved ("https://x/jobs/2"), .savedMessage ("https://x/jobs/2")]
    [("https://x/jobs/2")] rfl

/-! ## Claim C3 — novelty filter correctness -/

/-- Claim C3 (confirmed): for every seen table, page and discovered link
list, the set of identifiers the run processes is exactly the discovered
set minus the seen set; and in the concrete scenario with seen store
containing jobs/1 and discovery returning jobs/1 and jobs/2, the
processed set is exactly jobs/2. -/
theorem processed_set_eq_discovered_minus_seen :
    (∀ (db : List String) (base : String) (hrefs : List (Option String)),
      ∃ out, find_new_job_links db base (.loaded hrefs) = .ok out ∧
        ∀ x, x ∈ out ↔ x ∈ discoveredIds base hrefs ∧ x ∉ db) ∧
    find_new_job_links [("https://x/jobs/1")] ("https://x/")
        (.loaded [some ("https://x/jobs/1"), some ("https://x/jobs/2")])
      = .ok [("https://x/jobs/2")] := by
  constructor
  · intro db base hrefs
    refine ⟨(collectLinks db base hrefs).dedup, rfl, fun x => ?_⟩
    rw [List.mem_dedup]
    exact mem_collectLinks db base hrefs x
  · rfl

/-! ## Claim C4 — order of the Persist and Report steps -/

/-- Claim C4, counterexample: in a fully successful pass the analysis is
printed (`analysisPrinted`, main.py line 164) strictly before the url is
recorded (`urlSaved`, line 165), so "Persist before Report" is false on
the code. -/
theorem analysis_printed_before_persist :
    processItem true loads0 (some ("k")) [] ("https://x/jobs/2") goodInput
      = ([.processing ("https://x/jobs/2"), .apiRequest ("Bearer k"), .analysisPrinted,
          .urlSaved ("https://x/jobs/2"), .savedMessage ("https://x/jobs/2")],
         .ok [("https://x/jobs/2")]) ∧
    persistBeforeReport [.processing ("https://x/jobs/2"), .apiRequest ("Bearer k"),
        .analysisPrinted, .urlSaved ("https://x/jobs/2"), .savedMessage ("https://x/jobs/2")]
      = false :=
  ⟨rfl, rfl⟩

/-- Claim C4 (amended): in every loop iteration that returns normally
and whose trace contains both steps, the Report event (printing the
AnalysisResult) strictly precedes the Persist event (recording the
identifier) — the reverse of the claimed order. -/
theorem report_event_precedes_persist_event (modern : Bool)
    (loads : String → Except PyExn JsonValue) (key : Option String)
    (db : List String) (u : String) (inp : ItemInput)
    (evs : List Event) (db2 : List String)
    (h : processItem modern loads key db u inp = (evs, .ok db2))
    (i j : Nat) (hi : evs.findIdx? isPersistEvent = some i)
    (hj : evs.findIdx? isReportEvent = some j) : j < i := by
  rcases inp with ⟨ext, api⟩
  cases ext with
  | none =>
    simp only [processItem, Prod.mk.injEq, Except.ok.injEq] at h
    obtain ⟨he, hdb⟩ := h
    subst he
    simp [isPersistEvent] at hi
  | some t =>
    by_cases ht : t = ""
    · simp only [processItem, ht, Prod.mk.injEq, Except.ok.injEq, if_true,
        eq_self_iff_true] at h
      obtain ⟨he, hdb⟩ := h
      subst he
      simp [isPersistEvent] at hi
    · simp only [processItem, if_neg ht] at h
      rcases ha : analyze_with_deepseek modern loads api with e | ov
      · rw [ha] at h
        simp at h
      · rw [ha] at h
        cases ov with
        | none =>
          simp at h
          obtain ⟨he, hdb⟩ := h
          subst he
          simp [isPersistEvent] at hi
        | some v =>
          by_cases hv : v.truthy = true
          · rcases hd : add_url_to_db db u with e2 | db3
            · rw [hd] at h
              simp [hv] at h
            · rw [hd] at h
              simp [hv] at h
              obtain ⟨he, hdb⟩ := h
              subst he
              simp [isPersistEvent, isReportEvent] at hi hj
              omega
          · simp [hv] at h
            obtain ⟨he, hdb⟩ := h
            subst he
            simp [isPersistEvent] at hi

/-- Claim C4 witness: in the concrete successful pass the Report event
sits at index 2 and the Persist event at index 3 of the trace. -/
theorem report_event_precedes_persist_event_witness : (2 : Nat) < 3 :=
  report_event_precedes_persist_event true loads0 (some ("k")) [] ("https://x/jobs/2")
    goodInput
    [.processing ("https://x/jobs/2"), .apiRequest ("Bearer k"), .analysisPrinted,
     .urlSaved ("https://x/jobs/2"), .savedMessage ("https://x/jobs/2")]
    [("https://x/jobs/2")] rfl 3 2 rfl rfl

/-! ## Claim C5 — handling of a listing-page load failure -/

/-- Claim C5, counterexample: when the page load fails, the run neither
prints the found-count line nor proceeds with zero links — it ends in an
uncaught exception, unlike the clean zero-link run claimed. -/
theorem discovery_failure_crashes_run :
    runMain true loads0 (some ("k")) [] ("https://x/") DiscoveryOutcome.loadFailure
        (fun _ => ⟨none, ApiOutcome.connFail⟩)
      = ([], .error .playwrightError) ∧
    runMain true loads0 (some ("k")) [] ("https://x/") DiscoveryOutcome.loadFailure
        (fun _ => ⟨none, ApiOutcome.connFail⟩)
      ≠ ([Event.foundCount 0], .ok []) :=
  ⟨rfl, fun hcon => nomatch hcon⟩

/-- Claim C5 (amended): a page-load failure propagates uncaught out of
`find_new_job_links` and out of the `__main__` body — nothing is logged,
no zero-links fallback runs, and the process terminates with the raised
error (the `with` blocks still close the browser on the way out). -/
theorem discovery_failure_propagates_uncaught (modern : Bool)
    (loads : String → Except PyExn JsonValue) (key : Option String)
    (db : List String) (base : String) (items : String → ItemInput) :
    runMain modern loads key db base DiscoveryOutcome.loadFailure items
      = ([], .error .playwrightError) :=
  rfl

/-! ## Claim C6 — containment of per-item failures -/

/-- Claim C6, counterexample: a 2xx response whose body is valid JSON
but lacks the `choices` key raises an uncaught `KeyError` inside the
first iteration, aborting the whole run — the second identifier is never
processed (its processing marker is absent from the trace). -/
theorem malformed_envelope_aborts_run :
    runItems true loads0 (some ("k")) [("https://x/jobs/1"), ("https://x/jobs/2")] []
        (fun u => if u = ("https://x/jobs/1") then ⟨some ("job text"), .okJson (.obj [])⟩
                  else ⟨some ("job text"), ApiOutcome.connFail⟩)
      = ([.processing ("https://x/jobs/1"), .apiRequest ("Bearer k")],
         .error (.keyError ("choices"))) ∧
    Event.processing ("https://x/jobs/2")
      ∉ [Event.processing ("https://x/jobs/1"), Event.apiRequest ("Bearer k")] :=
  ⟨rfl, by decide⟩

/-- Claim C6 (amended): only the handled failure kinds are contained —
when every item's API outcome is handled (transport failure, non-2xx,
non-JSON body under modern requests, or a well-shaped envelope whose
content parses or fails with a plain JSON decode error) and the filtered
urls are fresh and duplicate-free, the loop runs to completion and only
appends processed urls; an unexpectedly-shaped envelope or a duplicate
insert instead raises an uncaught exception that aborts the run. -/
theorem handled_failures_are_contained (modern : Bool)
    (loads : String → Except PyExn JsonValue) (key : Option String)
    (urls : List String) (db : List String) (items : String → ItemInput) :
    urls.Nodup → (∀ u ∈ urls, u ∉ db) →
    (∀ u ∈ urls, handledOutcome modern loads (items u).api = true) →
    ∃ db2, (runItems modern loads key urls db items).2 = .ok db2 ∧
      ∀ x ∈ db2, x ∈ db ∨ x ∈ urls := by
  induction urls generalizing db with
  | nil =>
    intro _ _ _
    exact ⟨db, rfl, fun x hx => Or.inl hx⟩
  | cons u rest ih =>
    intro hnd hfresh hapi
    obtain ⟨evs0, db0, hp, hsub⟩ := processItem_ok_of_handled modern loads key db u (items u)
      (hfresh u (List.mem_cons_self u rest)) (hapi u (List.mem_cons_self u rest))
    have hfresh0 : ∀ x ∈ rest, x ∉ db0 := by
      intro x hx
      have hxdb : x ∉ db := hfresh x (List.mem_cons_of_mem u hx)
      have hxu : x ≠ u := by
        intro hxe
        subst hxe
        exact (List.nodup_cons.mp hnd).1 hx
      rcases hsub with hs | hs
      · rw [hs]; exact hxdb
      · rw [hs]
        simp [hxdb, hxu]
    obtain ⟨db2, h2, hsub2⟩ := ih db0 (List.nodup_cons.mp hnd).2 hfresh0
      (fun x hx => hapi x (List.mem_cons_of_mem u hx))
    refine ⟨db2, ?_, ?_⟩
    · simp only [runItems, hp]
      exact h2
    · intro x hx
      rcases hsub2 x hx with hxdb0 | hxrest
      · rcases hsub with hs | hs
        · rw [hs] at hxdb0
          exact Or.inl hxdb0
        · rw [hs] at hxdb0
          rcases List.mem_append.mp hxdb0 with hxl | hxr
          · exact Or.inl hxl
          · simp at hxr
            exact Or.inr (by simp [hxr])
      · exact Or.inr (List.mem_cons_of_mem u hxrest)

/-- Claim C6 witness: a run over one fresh identifier whose remote call
fails at transport level completes normally with an unchanged table. -/
theorem handled_failures_are_contained_witness :
    ∃ db2, (runItems true loads0 (some ("k")) [("https://x/jobs/1")] []
        (fun _ => ⟨some ("job text"), ApiOutcome.connFail⟩)).2 = .ok db2 ∧
      ∀ x ∈ db2, x ∈ ([] : List String) ∨ x ∈ [("https://x/jobs/1")] :=
  handled_failures_are_contained true loads0 (some ("k")) [("https://x/jobs/1")] []
    (fun _ => ⟨some ("job text"), ApiOutcome.connFail⟩)
    (by simp) (by simp) (fun u hu => rfl)

/-! ## Claim C7 — idempotence of seen-marking -/

/-- Claim C7, counterexample: the second `add_url_to_db` call on the
same identifier is neither a no-op nor tolerated — it raises
`IntegrityError`, and an orchestrator iteration that reaches the insert
with the identifier already present aborts with that uncaught error. -/
theorem duplicate_record_error_is_uncaught :
    add_url_to_db [] ("https://x/jobs/1") = .ok [("https://x/jobs/1")] ∧
    add_url_to_db [("https://x/jobs/1")] ("https://x/jobs/1") = .error .integrityError ∧
    (processItem true loads0 (some ("k")) [("https://x/jobs/1")] ("https://x/jobs/1")
        goodInput).2 = .error .integrityError :=
  ⟨rfl, rfl, rfl⟩

/-- Claim C7 (amended): recording a fresh identifier twice leaves
exactly one row for it and `contains` (the negation of `is_url_new`)
holds from the first call onwards; but the second call raises
`IntegrityError`, which no caller catches, instead of being a tolerated
no-op. -/
theorem record_twice_single_row (db : List String) (u : String) (hu : u ∉ db) :
    add_url_to_db db u = .ok (db ++ [u]) ∧
    (db ++ [u]).count u = 1 ∧
    is_url_new (db ++ [u]) u = false ∧
    add_url_to_db (db ++ [u]) u = .error .integrityError := by
  refine ⟨add_url_to_db_of_not_mem db u hu, ?_, ?_, ?_⟩
  · rw [List.count_append]
    rw [List.count_eq_zero.mpr hu]
    simp
  · simp [is_url_new, List.contains]
  · exact add_url_to_db_of_mem (db ++ [u]) u (by simp)

/-- Claim C7 witness: the amended property at a concrete fresh
identifier over the empty table. -/
theorem record_twice_single_row_witness :
    add_url_to_db [] ("https://x/jobs/9") = .ok (([] : List String) ++ [("https://x/jobs/9")]) ∧
    (([] : List String) ++ [("https://x/jobs/9")]).count ("https://x/jobs/9") = 1 ∧
    is_url_new (([] : List String) ++ [("https://x/jobs/9")]) ("https://x/jobs/9") = false ∧
    add_url_to_db (([] : List String) ++ [("https://x/jobs/9")]) ("https://x/jobs/9")
      = .error .integrityError :=
  record_twice_single_row [] ("https://x/jobs/9") (by simp)

/-! ## Claim C8 — absolute-resolution law -/

/-- Claim C8, counterexample: the relative link target `httpx/jobs/1`
(it carries no scheme) begins with the literal text `http`, so the code
skips resolution and keeps it verbatim, whereas joining it against the
page base via `urljoin` yields a different absolute identifier —
contradicting the claim that every relative target is resolved. -/
theorem relative_link_with_http_prefix_unresolved :
    hasScheme ("httpx/jobs/1") = false ∧
    resolveHref ("https://x/") ("httpx/jobs/1") = "httpx/jobs/1" ∧
    urljoin ("https://x/") ("httpx/jobs/1") = "https://x/httpx/jobs/1" ∧
    ("httpx/jobs/1" : String) ≠ "https://x/httpx/jobs/1" :=
  ⟨rfl, rfl, rfl, by decide⟩

/-- Claim C8 (amended): every link target that carries a scheme is
returned unchanged, and every target that does not begin with the
literal text `http` is resolved via `urljoin` against the page URL; the
claim's universal resolution of relative targets fails only on relative
targets that happen to begin with `http`, which the code keeps
verbatim. -/
theorem resolution_law_http_literal_guard (base href : String) :
    (hasScheme href = true → resolveHref base href = href) ∧
    (pyStartsWith href ("http") = false → resolveHref base href = urljoin base href) := by
  constructor
  · intro hs
    by_cases hp : pyStartsWith href ("http") = true
    · simp [resolveHref, hp]
    · have hne : href ≠ "" := by
        intro he
        rw [he] at hs
        simp [hasScheme] at hs
      simp [resolveHref, hp, urljoin, hne, hs]
  · intro hp
    simp [resolveHref, hp]

/-- Claim C8 witness: an absolute non-http link is kept verbatim and a
plain relative link is resolved through `urljoin`. -/
theorem resolution_law_http_literal_guard_witness :
    resolveHref ("https://a/b") ("ftp://c/jobs/1") = "ftp://c/jobs/1" ∧
    resolveHref ("https://a/b") ("postings/jobs/2")
      = urljoin ("https://a/b") ("postings/jobs/2") :=
  ⟨(resolution_law_http_literal_guard ("https://a/b") ("ftp://c/jobs/1")).1 (by decide),
   (resolution_law_http_literal_guard ("https://a/b") ("postings/jobs/2")).2 (by decide)⟩

/-! ## Claim C9 — fail-fast on a missing credential -/

/-- Claim C9, counterexample: with an empty environment the module-level
lookup yields `None`, the header dict is built with the literal
`Bearer None` authorization value, and a loop iteration still performs
the remote call (the request event is emitted) and returns normally —
no `MissingCredential` failure happens at any point. -/
theorem missing_credential_builds_bearer_none :
    DEEPSEEK_API_KEY (fun _ => none) = none ∧
    authorizationHeader (DEEPSEEK_API_KEY (fun _ => none)) = "Bearer None" ∧
    requestHeaders (DEEPSEEK_API_KEY (fun _ => none))
      = [(("Content-Type"), ("application/json")), (("Authorization"), ("Bearer None"))] ∧
    processItem true loads0 (DEEPSEEK_API_KEY (fun _ => none)) [] ("https://x/jobs/3")
        ⟨some ("job text"), ApiOutcome.connFail⟩
      = ([.processing ("https://x/jobs/3"), .apiRequest ("Bearer None")], .ok []) :=
  ⟨rfl, rfl, rfl, rfl⟩

/-- Claim C9 (amended): the script performs no credential check — for
every API outcome, a loop iteration with the credential absent proceeds
to issue the remote request with the authorization header built from the
missing value (`Bearer None`). -/
theorem missing_credential_not_checked (modern : Bool)
    (loads : String → Except PyExn JsonValue) (db : List String) (u : String)
    (api : ApiOutcome) :
    Event.apiRequest ("Bearer None") ∈
      (processItem modern loads none db u ⟨some ("job text"), api⟩).1 := by
  have hne : ("job text" : String) ≠ "" := by decide
  have hdr : authorizationHeader none = "Bearer None" := rfl
  simp only [processItem, hdr]
  rcases ha : analyze_with_deepseek modern loads api with e | ov
  · simp [hne]
  · cases ov with
    | none => simp [hne]
    | some v =>
      by_cases hv : v.truthy = true
      · rcases hd : add_url_to_db db u with e2 | db3
        · simp [hne, hv, hd]
        · simp [hne, hv, hd]
      · simp [hne, hv]

/-! ## Claim C10 — behaviour on a 2xx response with a non-JSON body -/

/-- Claim C10, counterexample: under the modern `requests` exception
hierarchy (requests ≥ 2.27, what an unpinned install provides), the
decode failure raised by `response.json()` is a `RequestException` and
is caught by the FIRST handler, so the function returns `None` rather
than raising the claimed `NameError`. -/
theorem invalid_json_body_returns_none :
    analyze_with_deepseek true loads0 ApiOutcome.bodyNotJson = .ok none ∧
    analyze_with_deepseek true loads0 ApiOutcome.bodyNotJson
      ≠ .error (.nameError ("result_content")) :=
  ⟨rfl, fun hcon => nomatch hcon⟩

/-- Claim C10 (amended): the behaviour on a 2xx non-JSON body depends on
the installed requests version: with requests ≥ 2.27 the first handler
catches the decode failure and the function returns `None`; only with
the pre-2.27 hierarchy does the plain `json.JSONDecodeError` reach the
second handler, whose print of the unassigned local `result_content`
raises the claimed uncaught `NameError`. -/
theorem invalid_json_body_depends_on_requests_version :
    (∀ loads : String → Except PyExn JsonValue,
      analyze_with_deepseek true loads ApiOutcome.bodyNotJson = .ok none) ∧
    (∀ loads : String → Except PyExn JsonValue,
      analyze_with_deepseek false loads ApiOutcome.bodyNotJson
        = .error (.nameError ("result_content"))) :=
  ⟨fun _ => rfl, fun _ => rfl⟩
